import Mathlib

/-!
Shallow embedding of the chit-chat Socket.IO server (src/app.py).

The server keeps three durable tables (users, channels, messages) and two
in-memory dictionaries: `active_users` (socket id to username) and
`user_channels` (socket id to the set of joined channel ids).  The six
Socket.IO event handlers (`disconnect`, `join_app`, `join_channel`,
`leave_channel`, `send_message`, `create_channel`) are modelled as pure
functions from a server state and the event data to the new state together
with the list of emitted socket events.  Python dictionaries become
association lists, Python sets of channel ids become duplicate-free lists,
SQLite autoincrement ids become explicit counters, and datetime timestamps
become naturals supplied to `send_message` as the commit time.
-/

namespace ChitChat

/-- A row of the users table: id, unique username, nullable socket id. -/
structure DBUser where
  id : Nat
  username : String
  socket_id : Option Nat
  deriving DecidableEq

/-- A row of the channels table: id, unique name, description. -/
structure DBChannel where
  id : Nat
  name : String
  description : String
  deriving DecidableEq

/-- A row of the messages table. -/
structure DBMessage where
  id : Nat
  content : String
  user_id : Nat
  channel_id : Nat
  timestamp : Nat
  deriving DecidableEq

/-- Message fields as serialised into socket payloads. -/
structure MsgData where
  id : Nat
  content : String
  username : String
  timestamp : Nat
  channel_id : Nat
  deriving DecidableEq

/-- Delivery target of one sio.emit call: a single socket (room=sid), the
room channel_N of one channel (optionally skipping one socket), or every
connected socket. -/
inductive EmitTarget where
  | toSid (sid : Nat)
  | toChannel (channel_id : Nat)
  | toChannelSkip (channel_id : Nat) (skip_sid : Nat)
  | toAll
  deriving DecidableEq

/-- Payload of one emitted socket event. -/
inductive Payload where
  | userLeft (username : String) (channel_id : Nat)
  | userJoined (username : String) (channel_id : Nat)
  | joinedApp (username : String) (user_id : Nat)
  | channelJoined (channel_id : Nat) (channel_name : String) (messages : List MsgData)
  | newMessage (m : MsgData)
  | errorMsg (message : String)
  | channelCreated (id : Nat) (name : String) (description : String)
  deriving DecidableEq

/-- One sio.emit call: event name, payload, target. -/
structure Emit where
  event : String
  payload : Payload
  target : EmitTarget
  deriving DecidableEq

/-- The whole server state: the three tables with their autoincrement
counters, plus the two in-memory dictionaries. -/
structure ServerState where
  users : List DBUser
  channels : List DBChannel
  messages : List DBMessage
  active_users : List (Nat × String)
  user_channels : List (Nat × List Nat)
  next_user_id : Nat
  next_channel_id : Nat
  next_message_id : Nat
  deriving DecidableEq

/-- Python dict assignment d[k] = v on an association list. -/
def setAssoc {α : Type} (l : List (Nat × α)) (k : Nat) (v : α) : List (Nat × α) :=
  (k, v) :: l.filter (fun p => p.1 != k)

/-- Python del d[k] on an association list. -/
def delAssoc {α : Type} (l : List (Nat × α)) (k : Nat) : List (Nat × α) :=
  l.filter (fun p => p.1 != k)

/-- Python set.add on the duplicate-free list representing a set. -/
def setAdd (l : List Nat) (c : Nat) : List Nat :=
  if c ∈ l then l else l ++ [c]

/-- Python set.discard on the duplicate-free list representing a set. -/
def setDiscard (l : List Nat) (c : Nat) : List Nat :=
  l.filter (fun x => x != c)

/-- Characters removed by Python str.strip() on ASCII input. -/
def isPySpace (c : Char) : Bool :=
  c = ' ' || c = '\t' || c = '\n' || c = '\r' || c = '\x0b' || c = '\x0c'

/-- Python str.strip(): drop leading and trailing whitespace. -/
def pyStrip (str : String) : String :=
  ⟨((str.data.dropWhile isPySpace).reverse.dropWhile isPySpace).reverse⟩

/-- db.query(User).filter(User.socket_id == sid).first() -/
def get_user_by_socket_id (s : ServerState) (sid : Nat) : Option DBUser :=
  s.users.find? (fun u => u.socket_id == some sid)

/-- db.query(Channel).filter(Channel.id == channel_id).first() -/
def find_channel_by_id (s : ServerState) (channel_id : Nat) : Option DBChannel :=
  s.channels.find? (fun c => c.id == channel_id)

/-- db.query(Channel).filter(Channel.name == name).first() -/
def find_channel_by_name (s : ServerState) (name : String) : Option DBChannel :=
  s.channels.find? (fun c => c.name == name)

/-- The username of the message author, via the msg.user relationship
(in the database every message has a matching user row). -/
def username_of_user_id (s : ServerState) (uid : Nat) : String :=
  match s.users.find? (fun u => u.id == uid) with
  | some u => u.username
  | none => ""

/-- Insertion step of sorting by timestamp descending. -/
def insertTsDesc (m : DBMessage) : List DBMessage → List DBMessage
  | [] => [m]
  | x :: xs => if x.timestamp ≤ m.timestamp then m :: x :: xs else x :: insertTsDesc m xs

/-- Sort by timestamp descending (order_by(Message.timestamp.desc())). -/
def sortTsDesc : List DBMessage → List DBMessage
  | [] => []
  | x :: xs => insertTsDesc x (sortTsDesc xs)

/-- get_channel_messages: filter by channel, order by timestamp descending,
take the first `limit` rows, then reverse the list ([::-1]). -/
def get_channel_messages (s : ServerState) (channel_id : Nat) (limit : Nat) :
    List DBMessage :=
  ((sortTsDesc (s.messages.filter (fun m => m.channel_id == channel_id))).take limit).reverse

/-- The disconnect handler.  Finds the user row whose socket id is sid and
clears it; only when such a row exists does it fall through to removing the
in-memory entries and emitting one user_left per joined channel. -/
def disconnect (sid : Nat) (s : ServerState) : ServerState × List Emit :=
  match get_user_by_socket_id s sid with
  | none => (s, [])
  | some _ =>
    let users1 := s.users.map
      (fun v => if v.socket_id == some sid then { v with socket_id := none } else v)
    match s.active_users.lookup sid with
    | none => ({ s with users := users1 }, [])
    | some username =>
      let active1 := delAssoc s.active_users sid
      match s.user_channels.lookup sid with
      | none => ({ s with users := users1, active_users := active1 }, [])
      | some chans =>
        ({ s with users := users1, active_users := active1,
                  user_channels := delAssoc s.user_channels sid },
         chans.map (fun cid =>
           ⟨"user_left", Payload.userLeft username cid, EmitTarget.toChannel cid⟩))

/-- The join_app handler.  data_username is none when the payload lacks the
username key: then the subscript raises KeyError before any effect and the
socketio server swallows the exception, so nothing changes and nothing is
emitted.  Otherwise the user row is created or rebound, the two in-memory
dictionaries are written, and joined_app is sent to the caller.  There is no
validation of the username value itself. -/
def join_app (sid : Nat) (data_username : Option String) (s : ServerState) :
    ServerState × List Emit :=
  match data_username with
  | none => (s, [])
  | some username =>
    match s.users.find? (fun u => u.username == username) with
    | none =>
      let uid := s.next_user_id
      ({ s with users := s.users ++ [⟨uid, username, some sid⟩],
                next_user_id := uid + 1,
                active_users := setAssoc s.active_users sid username,
                user_channels := setAssoc s.user_channels sid [] },
       [⟨"joined_app", Payload.joinedApp username uid, EmitTarget.toSid sid⟩])
    | some u =>
      ({ s with users := s.users.map
                  (fun v => if v.username == username then { v with socket_id := some sid } else v),
                active_users := setAssoc s.active_users sid username,
                user_channels := setAssoc s.user_channels sid [] },
       [⟨"joined_app", Payload.joinedApp username u.id, EmitTarget.toSid sid⟩])

/-- The join_channel handler: requires both a user row bound to sid and an
existing channel; records the channel in the joined set when sid is tracked,
replies with the history snapshot and notifies the rest of the room. -/
def join_channel (sid : Nat) (channel_id : Nat) (s : ServerState) :
    ServerState × List Emit :=
  match get_user_by_socket_id s sid, find_channel_by_id s channel_id with
  | some u, some ch =>
    let uc :=
      match s.user_channels.lookup sid with
      | some l => setAssoc s.user_channels sid (setAdd l channel_id)
      | none => s.user_channels
    let msg_data := (get_channel_messages s channel_id 50).map
      (fun m => (⟨m.id, m.content, username_of_user_id s m.user_id,
                  m.timestamp, m.channel_id⟩ : MsgData))
    ({ s with user_channels := uc },
     [⟨"channel_joined", Payload.channelJoined channel_id ch.name msg_data,
       EmitTarget.toSid sid⟩,
      ⟨"user_joined", Payload.userJoined u.username channel_id,
       EmitTarget.toChannelSkip channel_id sid⟩])
  | _, _ => (s, [])

/-- The leave_channel handler: requires only a user row bound to sid; it
discards the channel from the joined set when sid is tracked, and emits
user_left to the room unconditionally, whether or not sid was a member and
whether or not the channel exists. -/
def leave_channel (sid : Nat) (channel_id : Nat) (s : ServerState) :
    ServerState × List Emit :=
  match get_user_by_socket_id s sid with
  | none => (s, [])
  | some u =>
    let uc :=
      match s.user_channels.lookup sid with
      | some l => setAssoc s.user_channels sid (setDiscard l channel_id)
      | none => s.user_channels
    ({ s with user_channels := uc },
     [⟨"user_left", Payload.userLeft u.username channel_id,
       EmitTarget.toChannel channel_id⟩])

/-- The send_message handler: requires a bound user, an existing channel and
content with at least one non-whitespace character; then it appends the raw
content to the messages table with the commit-time timestamp and broadcasts
new_message to the room. -/
def send_message (sid : Nat) (channel_id : Nat) (content : String) (now : Nat)
    (s : ServerState) : ServerState × List Emit :=
  match get_user_by_socket_id s sid, find_channel_by_id s channel_id with
  | some u, some _ =>
    if pyStrip content ≠ "" then
      ({ s with messages := s.messages ++ [⟨s.next_message_id, content, u.id, channel_id, now⟩],
                next_message_id := s.next_message_id + 1 },
       [⟨"new_message",
         Payload.newMessage ⟨s.next_message_id, content, u.username, now, channel_id⟩,
         EmitTarget.toChannel channel_id⟩])
    else (s, [])
  | _, _ => (s, [])

/-- The create_channel handler: requires a bound user; on a name collision it
replies error to the caller only, otherwise it appends the channel row and
broadcasts channel_created to everyone.  A missing description defaults to
the empty string (data.get). -/
def create_channel (sid : Nat) (name : String) (description : Option String)
    (s : ServerState) : ServerState × List Emit :=
  match get_user_by_socket_id s sid with
  | none => (s, [])
  | some _ =>
    match find_channel_by_name s name with
    | some _ =>
      (s, [⟨"error", Payload.errorMsg ("Channel \"" ++ name ++ "\" already exists"),
            EmitTarget.toSid sid⟩])
    | none =>
      ({ s with channels := s.channels ++ [⟨s.next_channel_id, name, description.getD ""⟩],
                next_channel_id := s.next_channel_id + 1 },
       [⟨"channel_created",
         Payload.channelCreated s.next_channel_id name (description.getD ""),
         EmitTarget.toAll⟩])

/-- create_default_channels: seed the three default channels when the
channels table is empty. -/
def create_default_channels (s : ServerState) : ServerState :=
  if s.channels.length == 0 then
    let seeded : List DBChannel :=
      [⟨s.next_channel_id, "general", "General discussion"⟩,
       ⟨s.next_channel_id + 1, "random", "Random conversations"⟩,
       ⟨s.next_channel_id + 2, "tech", "Technology discussions"⟩]
    { s with channels := s.channels ++ seeded, next_channel_id := s.next_channel_id + 3 }
  else s

/-- The state of a freshly started process over an empty database. -/
def emptyState : ServerState := ⟨[], [], [], [], [], 1, 1, 1⟩

/-- The state right after startup: the three seeded channels, nothing else. -/
def initState : ServerState := create_default_channels emptyState

/-! ### Helper lemmas on the dictionary and set operations -/

theorem lookup_setAssoc_self {α : Type} (l : List (Nat × α)) (k : Nat) (v : α) :
    (setAssoc l k v).lookup k = some v := by
  simp [setAssoc, List.lookup]

theorem lookup_delAssoc_self {α : Type} (l : List (Nat × α)) (k : Nat) :
    (delAssoc l k).lookup k = none := by
  induction l with
  | nil => rfl
  | cons p t ih =>
    unfold delAssoc at ih ⊢
    by_cases h : p.1 = k
    · simpa [List.filter_cons, h] using ih
    · have hk : (k == p.1) = false := beq_eq_false_iff_ne.mpr (fun e => h e.symm)
      simp [List.filter_cons, h, List.lookup, hk, ih]

theorem mem_setAdd_self (l : List Nat) (c : Nat) : c ∈ setAdd l c := by
  unfold setAdd
  by_cases h : c ∈ l <;> simp [h]

theorem setAdd_of_mem {l : List Nat} {c : Nat} (h : c ∈ l) : setAdd l c = l := by
  simp [setAdd, h]

theorem setAdd_of_not_mem {l : List Nat} {c : Nat} (h : c ∉ l) : setAdd l c = l ++ [c] := by
  simp [setAdd, h]

theorem setDiscard_of_not_mem {l : List Nat} {c : Nat} (h : c ∉ l) : setDiscard l c = l := by
  unfold setDiscard
  refine List.filter_eq_self.mpr (fun a ha => ?_)
  simp only [bne_iff_ne, ne_eq]
  rintro rfl
  exact h ha

theorem setDiscard_setAdd {l : List Nat} {c : Nat} (h : c ∉ l) :
    setDiscard (setAdd l c) c = l := by
  rw [setAdd_of_not_mem h]
  unfold setDiscard
  rw [List.filter_append]
  have h1 : l.filter (fun x => x != c) = setDiscard l c := rfl
  rw [h1, setDiscard_of_not_mem h]
  simp

/-! ### Helper lemmas on pyStrip -/

theorem pyStrip_of_all_space {content : String} (h : content.data.all isPySpace) :
    pyStrip content = "" := by
  have h1 : content.data.dropWhile isPySpace = [] :=
    List.dropWhile_eq_nil_iff.mpr (fun x hx => List.all_eq_true.mp h x hx)
  simp [pyStrip, h1]

/-! ### Helper lemmas on the message window -/

theorem insertTsDesc_of_lt (m : DBMessage) (l : List DBMessage)
    (h : ∀ x ∈ l, m.timestamp < x.timestamp) : insertTsDesc m l = l ++ [m] := by
  induction l with
  | nil => rfl
  | cons x t ih =>
    have hx : m.timestamp < x.timestamp := h x (by simp)
    have hxle : ¬ (x.timestamp ≤ m.timestamp) := by omega
    simp [insertTsDesc, hxle, ih (fun y hy => h y (by simp [hy]))]

theorem sortTsDesc_of_increasing (l : List DBMessage)
    (h : l.Pairwise (fun a b => a.timestamp < b.timestamp)) :
    sortTsDesc l = l.reverse := by
  induction l with
  | nil => rfl
  | cons x t ih =>
    rcases List.pairwise_cons.mp h with ⟨h1, h2⟩
    have hstep : sortTsDesc (x :: t) = insertTsDesc x (sortTsDesc t) := rfl
    rw [hstep, ih h2,
        insertTsDesc_of_lt x t.reverse (fun y hy => h1 y (List.mem_reverse.mp hy))]
    simp

/-! ### Preservation lemmas: which handler touches which state component -/

theorem join_channel_users (sid cid : Nat) (s : ServerState) :
    (join_channel sid cid s).1.users = s.users := by
  unfold join_channel
  cases get_user_by_socket_id s sid <;> cases find_channel_by_id s cid <;> rfl

theorem join_channel_channels (sid cid : Nat) (s : ServerState) :
    (join_channel sid cid s).1.channels = s.channels := by
  unfold join_channel
  cases get_user_by_socket_id s sid <;> cases find_channel_by_id s cid <;> rfl

theorem leave_channel_users (sid cid : Nat) (s : ServerState) :
    (leave_channel sid cid s).1.users = s.users := by
  unfold leave_channel
  cases get_user_by_socket_id s sid <;> rfl

theorem get_user_join_channel (sid cid sid2 : Nat) (s : ServerState) :
    get_user_by_socket_id (join_channel sid cid s).1 sid2 = get_user_by_socket_id s sid2 := by
  unfold get_user_by_socket_id
  rw [join_channel_users]

theorem find_channel_join_channel (sid cid cid2 : Nat) (s : ServerState) :
    find_channel_by_id (join_channel sid cid s).1 cid2 = find_channel_by_id s cid2 := by
  unfold find_channel_by_id
  rw [join_channel_channels]

theorem get_user_leave_channel (sid cid sid2 : Nat) (s : ServerState) :
    get_user_by_socket_id (leave_channel sid cid s).1 sid2 = get_user_by_socket_id s sid2 := by
  unfold get_user_by_socket_id
  rw [leave_channel_users]

/-! ### Behaviour lemmas for join_channel and leave_channel -/

theorem join_channel_membership (sid cid : Nat) (s : ServerState) (u : DBUser)
    (ch : DBChannel) (l : List Nat)
    (hu : get_user_by_socket_id s sid = some u)
    (hc : find_channel_by_id s cid = some ch)
    (hl : s.user_channels.lookup sid = some l) :
    (join_channel sid cid s).1.user_channels.lookup sid = some (setAdd l cid) := by
  unfold join_channel
  rw [hu, hc, hl]
  simp [lookup_setAssoc_self]

theorem leave_channel_membership (sid cid : Nat) (s : ServerState) (u : DBUser)
    (l : List Nat)
    (hu : get_user_by_socket_id s sid = some u)
    (hl : s.user_channels.lookup sid = some l) :
    (leave_channel sid cid s).1.user_channels.lookup sid = some (setDiscard l cid) := by
  unfold leave_channel
  rw [hu, hl]
  simp [lookup_setAssoc_self]

theorem join_channel_events (sid cid : Nat) (s : ServerState) (u : DBUser)
    (ch : DBChannel)
    (hu : get_user_by_socket_id s sid = some u)
    (hc : find_channel_by_id s cid = some ch) :
    (join_channel sid cid s).2.map (fun e => e.event) = ["channel_joined", "user_joined"] := by
  unfold join_channel
  rw [hu, hc]
  rfl

theorem leave_channel_emits (sid cid : Nat) (s : ServerState) (u : DBUser)
    (hu : get_user_by_socket_id s sid = some u) :
    (leave_channel sid cid s).2 =
      [⟨"user_left", Payload.userLeft u.username cid, EmitTarget.toChannel cid⟩] := by
  unfold leave_channel
  rw [hu]

/-! ### Concrete states used by witnesses and counterexamples -/

/-- One identified user alice on socket 1, member of channel 1. -/
def st5 : ServerState :=
  ⟨[⟨1, "alice", some 1⟩], [⟨1, "general", "General discussion"⟩], [],
   [(1, "alice")], [(1, [1])], 2, 2, 1⟩

/-- One identified user bob on socket 7, member of nothing; no channels. -/
def st10 : ServerState :=
  ⟨[⟨1, "bob", some 7⟩], [], [], [(7, "bob")], [(7, [])], 2, 1, 1⟩

/-- One identified user alice on socket 3, member of channels 5 and 9. -/
def st2 : ServerState :=
  ⟨[⟨1, "alice", some 3⟩], [], [], [(3, "alice")], [(3, [5, 9])], 2, 1, 1⟩

/-- The seeded initial state with one identified user alice on socket 1. -/
def st6 : ServerState := { initState with users := [⟨1, "alice", some 1⟩] }

/-! ### Claims -/

/-- Claim C8: every join_app event, including one that rebinds the same
connection, sets the in-memory joined-channel set of that connection to the
empty set, discarding whatever was recorded before. -/
theorem c8_join_app_clears_membership (s : ServerState) (sid : Nat) (username : String) :
    (join_app sid (some username) s).1.user_channels.lookup sid = some [] := by
  simp only [join_app]
  cases h : s.users.find? (fun u => u.username == username) <;> simp [lookup_setAssoc_self]

/-- Claim C10: for every identified connection (a user row bound to the
socket id), leave_channel always emits exactly one user_left event carrying
the given channel id to the room of that channel, even when the connection
never joined the channel and even when no channel with that id exists. -/
theorem c10_leave_channel_always_notifies (sid cid : Nat) (s : ServerState) (u : DBUser)
    (hu : get_user_by_socket_id s sid = some u) :
    (leave_channel sid cid s).2 =
      [⟨"user_left", Payload.userLeft u.username cid, EmitTarget.toChannel cid⟩] :=
  leave_channel_emits sid cid s u hu

/-- Witness for C10 at a concrete state: channel 42 does not exist and the
connection is not a member of anything, yet user_left is broadcast. -/
theorem c10_witness :
    (leave_channel 7 42 st10).2 =
      [⟨"user_left", Payload.userLeft "bob" 42, EmitTarget.toChannel 42⟩] :=
  c10_leave_channel_always_notifies 7 42 st10 ⟨1, "bob", some 7⟩ rfl

/-- Claim C5: for an identified connection, an existing channel and content
that is all whitespace, send_message stores nothing and emits nothing. -/
theorem c5_whitespace_message_dropped (sid cid : Nat) (content : String) (now : Nat)
    (s : ServerState) (u : DBUser) (ch : DBChannel)
    (hu : get_user_by_socket_id s sid = some u)
    (hc : find_channel_by_id s cid = some ch)
    (hw : content.data.all isPySpace) :
    send_message sid cid content now s = (s, []) := by
  unfold send_message
  rw [hu, hc]
  simp [pyStrip_of_all_space hw]

/-- Witness for C5: sending two spaces and a tab changes nothing. -/
theorem c5_witness : send_message 1 1 "  \t" 42 st5 = (st5, []) :=
  c5_whitespace_message_dropped 1 1 "  \t" 42 st5 ⟨1, "alice", some 1⟩
    ⟨1, "general", "General discussion"⟩ rfl rfl rfl

/-- Claim C9: for an identified connection, an existing channel and content
that is non-empty after trimming, send_message stores the content exactly as
received and broadcasts it exactly as received: no trimming happens. -/
theorem c9_content_stored_untrimmed (sid cid : Nat) (content : String) (now : Nat)
    (s : ServerState) (u : DBUser) (ch : DBChannel)
    (hu : get_user_by_socket_id s sid = some u)
    (hc : find_channel_by_id s cid = some ch)
    (hs : pyStrip content ≠ "") :
    (send_message sid cid content now s).1.messages =
      s.messages ++ [⟨s.next_message_id, content, u.id, cid, now⟩] ∧
    (send_message sid cid content now s).2 =
      [⟨"new_message",
        Payload.newMessage ⟨s.next_message_id, content, u.username, now, cid⟩,
        EmitTarget.toChannel cid⟩] := by
  unfold send_message
  rw [hu, hc]
  simp [hs]

/-- Witness for C9: the stored and broadcast content keeps its leading and
trailing spaces. -/
theorem c9_witness :
    (send_message 1 1 " hi " 42 st5).1.messages = st5.messages ++ [⟨1, " hi ", 1, 1, 42⟩] ∧
    (send_message 1 1 " hi " 42 st5).2 =
      [⟨"new_message", Payload.newMessage ⟨1, " hi ", "alice", 42, 1⟩,
        EmitTarget.toChannel 1⟩] :=
  c9_content_stored_untrimmed 1 1 " hi " 42 st5 ⟨1, "alice", some 1⟩
    ⟨1, "general", "General discussion"⟩ rfl rfl (by decide)

/-- Claim C2: disconnecting an identified session whose joined-channel set is
exactly the two distinct channels a and b emits exactly one user_left to the
room of a and one to the room of b and nothing else, and removes the session
from both the active-user map and the membership map. -/
theorem c2_disconnect_notifies_and_cleans (sid a b : Nat) (s : ServerState)
    (u : DBUser) (username : String)
    (hu : get_user_by_socket_id s sid = some u)
    (ha : s.active_users.lookup sid = some username)
    (hc : s.user_channels.lookup sid = some [a, b])
    (_hab : a ≠ b) :
    (disconnect sid s).2 =
      [⟨"user_left", Payload.userLeft username a, EmitTarget.toChannel a⟩,
       ⟨"user_left", Payload.userLeft username b, EmitTarget.toChannel b⟩] ∧
    (disconnect sid s).1.active_users.lookup sid = none ∧
    (disconnect sid s).1.user_channels.lookup sid = none := by
  refine ⟨?_, ?_, ?_⟩ <;> simp [disconnect, hu, ha, hc, lookup_delAssoc_self]

/-- Witness for C2: alice on socket 3 is a member of channels 5 and 9. -/
theorem c2_witness :
    (disconnect 3 st2).2 =
      [⟨"user_left", Payload.userLeft "alice" 5, EmitTarget.toChannel 5⟩,
       ⟨"user_left", Payload.userLeft "alice" 9, EmitTarget.toChannel 9⟩] ∧
    (disconnect 3 st2).1.active_users.lookup 3 = none ∧
    (disconnect 3 st2).1.user_channels.lookup 3 = none :=
  c2_disconnect_notifies_and_cleans 3 5 9 st2 ⟨1, "alice", some 3⟩ "alice"
    rfl rfl rfl (by decide)

/-- Claim C6: for an identified connection, create_channel with a taken name
replies error to the caller only and changes nothing, while a fresh name
appends the channel row and broadcasts channel_created to everyone. -/
theorem c6_create_channel_collision_or_create (sid : Nat) (name : String)
    (description : Option String) (s : ServerState) (u : DBUser)
    (hu : get_user_by_socket_id s sid = some u) :
    (∀ ch, find_channel_by_name s name = some ch →
      create_channel sid name description s =
        (s, [⟨"error", Payload.errorMsg ("Channel \"" ++ name ++ "\" already exists"),
              EmitTarget.toSid sid⟩])) ∧
    (find_channel_by_name s name = none →
      create_channel sid name description s =
        ({ s with
            channels := s.channels ++ [⟨s.next_channel_id, name, description.getD ""⟩],
            next_channel_id := s.next_channel_id + 1 },
         [⟨"channel_created",
           Payload.channelCreated s.next_channel_id name (description.getD ""),
           EmitTarget.toAll⟩])) := by
  constructor
  · intro ch hch
    simp [create_channel, hu, hch]
  · intro hn
    simp [create_channel, hu, hn]

/-- Witness for C6: with the seeded channels, creating general collides and
creating newchan succeeds with a broadcast. -/
theorem c6_witness :
    create_channel 1 "general" none st6 =
      (st6, [⟨"error", Payload.errorMsg "Channel \"general\" already exists",
              EmitTarget.toSid 1⟩]) ∧
    create_channel 1 "newchan" none st6 =
      ({ st6 with
          channels := st6.channels ++ [⟨st6.next_channel_id, "newchan", ""⟩],
          next_channel_id := st6.next_channel_id + 1 },
       [⟨"channel_created", Payload.channelCreated st6.next_channel_id "newchan" "",
         EmitTarget.toAll⟩]) :=
  ⟨(c6_create_channel_collision_or_create 1 "general" none st6 ⟨1, "alice", some 1⟩
      rfl).1 ⟨1, "general", "General discussion"⟩ rfl,
   (c6_create_channel_collision_or_create 1 "newchan" none st6 ⟨1, "alice", some 1⟩
      rfl).2 rfl⟩

/-- Counterexample to claim C4: join_app with the empty-string username is
not rejected.  Starting from the seeded initial state it creates a user row
with the empty username, adds the connection to the active set and emits the
joined_app confirmation. -/
theorem c4_counterexample :
    (join_app 1 (some "") initState).1.users = [⟨1, "", some 1⟩] ∧
    (join_app 1 (some "") initState).1.active_users.lookup 1 = some "" ∧
    (join_app 1 (some "") initState).2 =
      [⟨"joined_app", Payload.joinedApp "" 1, EmitTarget.toSid 1⟩] := by
  decide

/-- Amended claim C4: a join_app whose payload lacks the username key aborts
on the KeyError before any effect, so no user row is touched, the connection
is not added to the active set and no joined_app is emitted; but a join_app
carrying the empty string as username is not rejected: the handler performs
no validation, so it creates the empty-named user row when none exists and
rebinds the existing empty-named user row otherwise, and in both cases adds
the connection to the active set and emits joined_app. -/
theorem c4_amended_missing_key_only :
    (∀ (s : ServerState) (sid : Nat), join_app sid none s = (s, [])) ∧
    (∀ (s : ServerState) (sid : Nat),
      s.users.find? (fun u => u.username == "") = none →
      (join_app sid (some "") s).1.users =
        s.users ++ [⟨s.next_user_id, "", some sid⟩] ∧
      (join_app sid (some "") s).1.active_users.lookup sid = some "" ∧
      (join_app sid (some "") s).2 =
        [⟨"joined_app", Payload.joinedApp "" s.next_user_id, EmitTarget.toSid sid⟩]) ∧
    (∀ (s : ServerState) (sid : Nat) (u : DBUser),
      s.users.find? (fun u => u.username == "") = some u →
      (join_app sid (some "") s).1.users =
        s.users.map (fun v => if v.username == "" then { v with socket_id := some sid } else v) ∧
      (join_app sid (some "") s).1.active_users.lookup sid = some "" ∧
      (join_app sid (some "") s).2 =
        [⟨"joined_app", Payload.joinedApp "" u.id, EmitTarget.toSid sid⟩]) := by
  refine ⟨fun s sid => rfl, fun s sid h => ?_, fun s sid u h => ?_⟩
  · refine ⟨?_, ?_, ?_⟩ <;> simp [join_app, h, lookup_setAssoc_self]
  · refine ⟨?_, ?_, ?_⟩ <;> simp [join_app, h, lookup_setAssoc_self]

/-- One existing empty-named user row, currently offline. -/
def st4 : ServerState := ⟨[⟨1, "", none⟩], [], [], [], [], 2, 1, 1⟩

/-- Witness for the amended C4: the missing-key case and the empty-string
create case at the seeded initial state, and the empty-string rebind case at
a state that already holds an empty-named user row. -/
theorem c4_amended_witness :
    join_app 1 none initState = (initState, []) ∧
    ((join_app 1 (some "") initState).1.users =
       initState.users ++ [⟨1, "", some 1⟩] ∧
     (join_app 1 (some "") initState).1.active_users.lookup 1 = some "" ∧
     (join_app 1 (some "") initState).2 =
       [⟨"joined_app", Payload.joinedApp "" 1, EmitTarget.toSid 1⟩]) ∧
    ((join_app 3 (some "") st4).1.users = [⟨1, "", some 3⟩] ∧
     (join_app 3 (some "") st4).1.active_users.lookup 3 = some "" ∧
     (join_app 3 (some "") st4).2 =
       [⟨"joined_app", Payload.joinedApp "" 1, EmitTarget.toSid 3⟩]) :=
  ⟨c4_amended_missing_key_only.1 initState 1,
   c4_amended_missing_key_only.2.1 initState 1 rfl,
   c4_amended_missing_key_only.2.2 st4 3 ⟨1, "", none⟩ rfl⟩

/-- Already a member of channel 1: alice on socket 1 with joined set [1]. -/
def stc3 : ServerState :=
  ⟨[⟨1, "alice", some 1⟩], [⟨1, "general", "General discussion"⟩], [],
   [(1, "alice")], [(1, [1])], 2, 2, 1⟩

/-- Counterexample to claim C3 as stated: when the connection is already a
member of the channel, join_channel then leave_channel does not restore the
pre-join membership set (the round trip removes the channel), and a repeated
leave_channel is not notification-free: it emits user_left again. -/
theorem c3_counterexample :
    stc3.user_channels.lookup 1 = some [1] ∧
    (leave_channel 1 1 (join_channel 1 1 stc3).1).1.user_channels.lookup 1 = some [] ∧
    (leave_channel 1 1 (join_channel 1 1 stc3).1).1.user_channels.lookup 1 ≠
      stc3.user_channels.lookup 1 ∧
    (leave_channel 1 1 (leave_channel 1 1 stc3).1).2.map (fun e => e.event) =
      ["user_left"] := by
  decide

/-- Amended claim C3: for an identified connection, an existing channel and a
tracked membership set that does not yet contain the channel, join_channel
followed by leave_channel restores the membership set; repeating
join_channel or leave_channel leaves the membership set unchanged; but each
repeated call re-emits its notifications: a second join_channel emits
channel_joined and user_joined again, and a second leave_channel emits
user_left again. -/
theorem c3_amended_round_trip (sid cid : Nat) (s : ServerState) (u : DBUser)
    (ch : DBChannel) (l : List Nat)
    (hu : get_user_by_socket_id s sid = some u)
    (hc : find_channel_by_id s cid = some ch)
    (hl : s.user_channels.lookup sid = some l)
    (hm : cid ∉ l) :
    (leave_channel sid cid (join_channel sid cid s).1).1.user_channels.lookup sid = some l ∧
    (join_channel sid cid (join_channel sid cid s).1).1.user_channels.lookup sid =
      (join_channel sid cid s).1.user_channels.lookup sid ∧
    (join_channel sid cid (join_channel sid cid s).1).2.map (fun e => e.event) =
      ["channel_joined", "user_joined"] ∧
    (leave_channel sid cid (leave_channel sid cid (join_channel sid cid s).1).1).1.user_channels.lookup sid =
      (leave_channel sid cid (join_channel sid cid s).1).1.user_channels.lookup sid ∧
    (leave_channel sid cid (leave_channel sid cid (join_channel sid cid s).1).1).2 =
      [⟨"user_left", Payload.userLeft u.username cid, EmitTarget.toChannel cid⟩] := by
  have hu1 : get_user_by_socket_id (join_channel sid cid s).1 sid = some u := by
    rw [get_user_join_channel]
    exact hu
  have hc1 : find_channel_by_id (join_channel sid cid s).1 cid = some ch := by
    rw [find_channel_join_channel]
    exact hc
  have hl1 : (join_channel sid cid s).1.user_channels.lookup sid = some (setAdd l cid) :=
    join_channel_membership sid cid s u ch l hu hc hl
  have hrt : (leave_channel sid cid (join_channel sid cid s).1).1.user_channels.lookup sid
      = some l := by
    rw [leave_channel_membership sid cid _ u (setAdd l cid) hu1 hl1, setDiscard_setAdd hm]
  have hu2 : get_user_by_socket_id (leave_channel sid cid (join_channel sid cid s).1).1 sid
      = some u := by
    rw [get_user_leave_channel]
    exact hu1
  refine ⟨hrt, ?_, ?_, ?_, ?_⟩
  · rw [join_channel_membership sid cid _ u ch (setAdd l cid) hu1 hc1 hl1, hl1,
        setAdd_of_mem (mem_setAdd_self l cid)]
  · exact join_channel_events sid cid _ u ch hu1 hc1
  · rw [leave_channel_membership sid cid _ u l hu2 hrt, hrt, setDiscard_of_not_mem hm]
  · exact leave_channel_emits sid cid _ u hu2

/-- As st5 but with an empty joined set, for the amended C3 witness. -/
def st3w : ServerState :=
  ⟨[⟨1, "alice", some 1⟩], [⟨1, "general", "General discussion"⟩], [],
   [(1, "alice")], [(1, [])], 2, 2, 1⟩

/-- Witness for the amended C3 at a concrete state not yet joined to the
channel. -/
theorem c3_amended_witness :
    (leave_channel 1 1 (join_channel 1 1 st3w).1).1.user_channels.lookup 1 = some [] ∧
    (join_channel 1 1 (join_channel 1 1 st3w).1).1.user_channels.lookup 1 =
      (join_channel 1 1 st3w).1.user_channels.lookup 1 ∧
    (join_channel 1 1 (join_channel 1 1 st3w).1).2.map (fun e => e.event) =
      ["channel_joined", "user_joined"] ∧
    (leave_channel 1 1 (leave_channel 1 1 (join_channel 1 1 st3w).1).1).1.user_channels.lookup 1 =
      (leave_channel 1 1 (join_channel 1 1 st3w).1).1.user_channels.lookup 1 ∧
    (leave_channel 1 1 (leave_channel 1 1 (join_channel 1 1 st3w).1).1).2 =
      [⟨"user_left", Payload.userLeft "alice" 1, EmitTarget.toChannel 1⟩] :=
  c3_amended_round_trip 1 1 st3w ⟨1, "alice", some 1⟩
    ⟨1, "general", "General discussion"⟩ [] rfl rfl rfl (by decide)

/-- C1 failure trace, step 1: connection 1 identifies as alice. -/
def c1_s1 : ServerState := (join_app 1 (some "alice") initState).1

/-- C1 failure trace, step 2: connection 1 joins channel 1. -/
def c1_s2 : ServerState := (join_channel 1 1 c1_s1).1

/-- C1 failure trace, step 3: connection 2 identifies as alice as well, which
rebinds the alice user row to socket 2. -/
def c1_s3 : ServerState := (join_app 2 (some "alice") c1_s2).1

/-- Claim C1 fails on the code: after the rebind no user row carries socket
id 1 any more, so the disconnect handler for connection 1 skips its whole
cleanup branch, and the stale active-user and membership entries of
connection 1 survive the disconnect, violating the invariant that membership
never outlives the session. -/
theorem c1_membership_outlives_session :
    get_user_by_socket_id c1_s3 1 = none ∧
    (disconnect 1 c1_s3).1.active_users.lookup 1 = some "alice" ∧
    (disconnect 1 c1_s3).1.user_channels.lookup 1 = some [1] ∧
    (disconnect 1 c1_s3).2 = [] := by
  decide

/-- Claim C7: when commit timestamps are strictly increasing in append
order, get_channel_messages returns a window of length min N (number of
messages of the channel), which is a suffix of the append-ordered message
list of the channel (so the most recent ones, with no reordering and no
duplication), in non-decreasing timestamp order. -/
theorem c7_recent_messages_window (s : ServerState) (cid N : Nat)
    (h : s.messages.Pairwise (fun a b => a.timestamp < b.timestamp)) :
    (get_channel_messages s cid N).length =
      min N (s.messages.filter (fun m => m.channel_id == cid)).length ∧
    get_channel_messages s cid N <:+ s.messages.filter (fun m => m.channel_id == cid) ∧
    (get_channel_messages s cid N).Pairwise (fun a b => a.timestamp ≤ b.timestamp) := by
  have hp : (s.messages.filter (fun m => m.channel_id == cid)).Pairwise
      (fun a b => a.timestamp < b.timestamp) :=
    List.Pairwise.sublist (List.filter_sublist _) h
  have hs : get_channel_messages s cid N =
      (((s.messages.filter (fun m => m.channel_id == cid)).reverse).take N).reverse := by
    rw [get_channel_messages, sortTsDesc_of_increasing _ hp]
  refine ⟨?_, ?_, ?_⟩
  · rw [hs]
    simp
  · rw [hs]
    have h1 := List.take_prefix N (s.messages.filter (fun m => m.channel_id == cid)).reverse
    have h2 := List.reverse_suffix.mpr h1
    simpa using h2
  · rw [hs]
    have h1 := List.take_prefix N (s.messages.filter (fun m => m.channel_id == cid)).reverse
    have h2 := (List.reverse_suffix.mpr h1).sublist
    rw [List.reverse_reverse] at h2
    exact (List.Pairwise.sublist h2 hp).imp (fun hab => le_of_lt hab)

/-- Four messages with increasing timestamps, three in channel 1. -/
def st7 : ServerState :=
  ⟨[⟨1, "ann", none⟩], [⟨1, "general", "General discussion"⟩],
   [⟨1, "m1", 1, 1, 10⟩, ⟨2, "m2", 1, 1, 20⟩, ⟨3, "m3", 1, 2, 25⟩, ⟨4, "m4", 1, 1, 30⟩],
   [], [], 2, 2, 5⟩

/-- Witness for C7: the two most recent of the three channel-1 messages. -/
theorem c7_witness :
    (get_channel_messages st7 1 2).length =
      min 2 (st7.messages.filter (fun m => m.channel_id == 1)).length ∧
    get_channel_messages st7 1 2 <:+ st7.messages.filter (fun m => m.channel_id == 1) ∧
    (get_channel_messages st7 1 2).Pairwise (fun a b => a.timestamp ≤ b.timestamp) :=
  c7_recent_messages_window st7 1 2 (by decide)

end ChitChat
